import Mathlib

/-!
Verification development for the TecBlu savings-calculator widget
(repository `tecblu-calc-embed`).

The calculation engine (`src/src/calculator.js`, and its bundled copy in
the distributed file) works on JavaScript numbers; all the values that
occur are small decimal fractions, so the arithmetic is embedded exactly
in the rationals `ℚ`.  JavaScript built-ins that the engine calls
(`parseFloat`, `Math.round`, `Intl.NumberFormat`) are modelled for the
input space the widget feeds them, as documented on each definition.
-/

/-! ### Constants (src/src/calculator.js lines 10-21) -/

/-- Product cost per liter treated, `TEC_COST` in the source. -/
def TEC_COST : ℚ := 0.0463

/-- CO2 emission factor in kg per liter, `CO2_LITER` in the source. -/
def CO2_LITER : ℚ := 2.65

/-- Output value ceiling `MAX_OUT` applied inside the formatting helpers. -/
def MAX_OUT : ℚ := 999999999999

/-- The clamp helper, `clamp(v, min, max) = Math.min(max, Math.max(min, v))`
(src/src/calculator.js line 69 and line 206 of the bundle). -/
def clamp (v lo hi : ℚ) : ℚ := min hi (max lo v)

/-! ### JavaScript input parsing

`parseFloat(raw) || fallback` is how every numeric field is read.  The
parse result is modelled as `Option ℚ`, `none` standing for `NaN`. -/

/-- Value of a list of decimal digit characters. -/
def digitsVal (cs : List Char) : ℕ :=
  cs.foldl (fun n c => 10 * n + (c.toNat - 48)) 0

/-- Digit-level result of a `parseFloat` call: sign, integer part,
fraction digits value, and number of fraction digits. -/
structure ParsedNum where
  neg : Bool
  intPart : ℕ
  fracVal : ℕ
  fracLen : ℕ
deriving DecidableEq

/-- Digit-level model of the JavaScript `parseFloat` built-in,
restricted to the shapes the widget feeds it: an optional sign followed
by decimal digits with an optional fraction part, any trailing junk
ignored (JavaScript parses the longest numeric prefix).  Exponent
notation and leading whitespace, which no widget input uses, are not
modelled.  `none` stands for `NaN`. -/
def jsParseRaw (s : String) : Option ParsedNum :=
  let cs := s.data
  let sgn : Bool × List Char :=
    match cs with
    | c :: t => if c = '-' then (true, t) else if c = '+' then (false, t) else (false, cs)
    | [] => (false, cs)
  let ip := sgn.2.takeWhile Char.isDigit
  let r1 := sgn.2.dropWhile Char.isDigit
  let fp : List Char :=
    match r1 with
    | '.' :: t => t.takeWhile Char.isDigit
    | _ => []
  if ip.isEmpty && fp.isEmpty then none
  else some ⟨sgn.1, digitsVal ip, digitsVal fp, fp.length⟩

/-- Rational value of a digit-level parse result. -/
def ParsedNum.val (p : ParsedNum) : ℚ :=
  (if p.neg then -1 else 1) * ((p.intPart : ℚ) + (p.fracVal : ℚ) / (10 : ℚ) ^ p.fracLen)

/-- The JavaScript `parseFloat` built-in as a rational. -/
def jsParseFloat (s : String) : Option ℚ :=
  (jsParseRaw s).map ParsedNum.val

/-- JavaScript `x || fallback` on a parse result: `NaN` (here `none`) and
`0` are falsy, so both select the fallback. -/
def jsOr (o : Option ℚ) (fallback : ℚ) : ℚ :=
  match o with
  | none => fallback
  | some v => if v = 0 then fallback else v

/-! ### The diesel / vehicle-fuel mode (`calcDiesel`, calculator.js 329-363) -/

/-- All locals computed by `calcDiesel`: the four clamped inputs and the
ten derived quantities. -/
structure DieselResult where
  km : ℚ
  price : ℚ
  cons : ℚ
  savePct : ℚ
  litersPerVehicle : ℚ
  totalLiters : ℚ
  litersSaved : ℚ
  gross : ℚ
  tecCost : ℚ
  net : ℚ
  co2 : ℚ
  perVehicle : ℚ
  costWithout : ℚ
  costWith : ℚ
deriving DecidableEq

/-- Arithmetic core of `calcDiesel` (calculator.js lines 330-348): clamp
each raw input to its `LIM` bound, then compute the derived quantities.
`vehicles` is the widget state `this.vehicles`.  Division in `ℚ` is total
(`x / 0 = 0`); the source never divides by zero on the inputs the claims
quantify over. -/
def calcDieselCore (vehicles kmRaw priceRaw consRaw savRaw : ℚ) : DieselResult :=
  let km := clamp kmRaw 1000 300000
  let price := clamp priceRaw 0.5 5
  let cons := clamp consRaw 1 150
  let savePct := clamp savRaw 1 25
  let litersPerVehicle := (km / 100) * cons
  let totalLiters := litersPerVehicle * vehicles
  let litersSaved := totalLiters * (savePct / 100)
  let gross := litersSaved * price
  let tecCost := totalLiters * TEC_COST
  let net := max 0 (gross - tecCost)
  let co2 := litersSaved * (CO2_LITER / 1000)
  let perVehicle := max 0 (net / vehicles)
  let costWithout := totalLiters * price
  let costWith := costWithout - net
  ⟨km, price, cons, savePct, litersPerVehicle, totalLiters, litersSaved,
   gross, tecCost, net, co2, perVehicle, costWithout, costWith⟩

/-- The consumption field: the `<select>` value is either the literal
string `"custom"` (then the custom input is parsed with fallback `32`) or
is parsed directly, with no fallback (calculator.js lines 333-335).
`none` stands for the `NaN` that would then poison the computation. -/
def parseCons (consType customStr : String) : Option ℚ :=
  if consType = "custom" then some (jsOr (jsParseFloat customStr) 32)
  else jsParseFloat consType

/-- String-level `calcDiesel` (calculator.js lines 329-348): read each
field with its fallback (`km` 80000, price the country default diesel
price, savings 7), then run the arithmetic core.  A `none` result stands
for the `NaN`-poisoned computation produced by an unparseable consumption
select value. -/
def calcDiesel (vehicles : ℚ) (kmStr priceStr consType customStr savStr : String)
    (defaultDiesel : ℚ) : Option DieselResult :=
  (parseCons consType customStr).map fun cons =>
    calcDieselCore vehicles (jsOr (jsParseFloat kmStr) 80000)
      (jsOr (jsParseFloat priceStr) defaultDiesel) cons
      (jsOr (jsParseFloat savStr) 7)

/-! ### The heating-oil mode (`calcHeating`, calculator.js 365-390) -/

/-- All locals computed by `calcHeating`. -/
structure HeatingResult where
  liters : ℚ
  price : ℚ
  savePct : ℚ
  litersSaved : ℚ
  gross : ℚ
  tecCost : ℚ
  net : ℚ
  co2 : ℚ
  costWithout : ℚ
  costWith : ℚ
deriving DecidableEq

/-- Arithmetic core of `calcHeating` (calculator.js lines 366-376). -/
def calcHeatingCore (litersRaw priceRaw savRaw : ℚ) : HeatingResult :=
  let liters := clamp litersRaw 500 500000
  let price := clamp priceRaw 0.5 5
  let savePct := clamp savRaw 1 25
  let litersSaved := liters * (savePct / 100)
  let gross := litersSaved * price
  let tecCost := liters * TEC_COST
  let net := max 0 (gross - tecCost)
  let co2 := litersSaved * (CO2_LITER / 1000)
  let costWithout := liters * price
  let costWith := costWithout - net
  ⟨liters, price, savePct, litersSaved, gross, tecCost, net, co2, costWithout, costWith⟩

/-- String-level `calcHeating`: fallbacks are 8000 liters, the country
default heating price, and 7 percent. -/
def calcHeating (litersStr priceStr savStr : String) (defaultHeating : ℚ) : HeatingResult :=
  calcHeatingCore (jsOr (jsParseFloat litersStr) 8000)
    (jsOr (jsParseFloat priceStr) defaultHeating)
    (jsOr (jsParseFloat savStr) 7)

/-! ### Number and currency formatting

`Intl.NumberFormat` is a host built-in; it is modelled here for the
`de-CH` locale used by the default language path, whose grouping
separator is the apostrophe of the golden outputs.  Rounding follows
JavaScript `Math.round`, which is `⌊x + 1/2⌋` on the exact values that
occur here. -/

/-- The apostrophe character (code 39), the Swiss grouping separator. -/
def aposC : Char := Char.ofNat 39

/-- The apostrophe as a one-character string. -/
def aposS : String := String.singleton aposC

/-- JavaScript `Math.round`: round half toward positive infinity,
`⌊q + 1/2⌋`. -/
def jsRound (q : ℚ) : ℤ := ⌊q + 1 / 2⌋

/-- Split a digit list, least significant first, into groups of three. -/
def chunk3 : List Char → List (List Char)
  | a :: b :: c :: rest => [a, b, c] :: chunk3 rest
  | l => [l]

/-- Decimal digits of a natural number with apostrophe thousands
separators, the `de-CH` rendering of `Intl.NumberFormat` with zero
fraction digits. -/
def groupDigits (n : ℕ) : String :=
  String.mk (List.intercalate [aposC] (((chunk3 (Nat.repr n).data.reverse).map List.reverse).reverse))

/-- Grouped rendering of an integer. -/
def groupInt (z : ℤ) : String :=
  if z < 0 then "-" ++ groupDigits z.natAbs else groupDigits z.toNat

/-- The bundle's `formatCurrency(value, currency, lang)` (distributed
file lines 131-146): cap at `MAX_OUT`, round, group, then emit
`"<currency> <formatted>.–"`. -/
def formatCurrency (value : ℚ) (currency : String) : String :=
  currency ++ " " ++ groupInt (jsRound (min value MAX_OUT)) ++ ".–"

/-- `fmtCurrency` of `src/src/calculator.js` (lines 78-83): Swiss franc
style is `"CHF <grouped>.–"`, the Euro branch emits a leading `"€ "`
prefix.  The inner `fmtNum` call caps at `MAX_OUT` again, which is
idempotent on the already-capped rounded value. -/
def fmtCurrency (n : ℚ) (currency : String) : String :=
  let val := groupInt (jsRound (min n MAX_OUT))
  if currency = "CHF" then "CHF " ++ val ++ ".–" else "€ " ++ val

/-! ### Locale resolution (`detectLocale`, src/src/locale.js lines 84-121) -/

/-- Resolved locale record returned by `detectLocale`: language code,
country code, currency code, and the pair (default diesel price, default
heating price) for the country. -/
structure LocaleInfo where
  lang : String
  country : String
  currency : String
  prices : ℚ × ℚ
deriving DecidableEq

/-- Split a character list on a separator character, JavaScript
`String.prototype.split` on a single-character separator. -/
def splitOnChar (sep : Char) : List Char → List (List Char)
  | [] => [[]]
  | c :: rest =>
    let r := splitOnChar sep rest
    if c = sep then [] :: r
    else
      match r with
      | g :: gs => (c :: g) :: gs
      | [] => [[c]]

/-- Hostname lowered and split on dots, as in `detectLocale`. -/
def hostParts (host : String) : List String :=
  (splitOnChar '.' (host.data.map Char.toLower)).map String.mk

/-- The subdomain: first part when there are more than two parts, else
absent (`parts.length > 2 ? parts[0] : null`). -/
def subdomainOf (host : String) : Option String :=
  let parts := hostParts host
  if parts.length > 2 then parts.head? else none

/-- The top-level domain: last part of the hostname. -/
def tldOf (host : String) : String := (hostParts host).getLastD ""

/-- Language resolution of `detectLocale`: a recognized language
subdomain (`en`, `fr`, `it`) wins, otherwise the `fr`/`it` top-level
domains, otherwise German. -/
def detectLang (host : String) : String :=
  let tld := tldOf host
  match subdomainOf host with
  | some s =>
    if s = "en" || s = "fr" || s = "it" then s
    else if tld = "fr" then "fr" else if tld = "it" then "it" else "de"
  | none => if tld = "fr" then "fr" else if tld = "it" then "it" else "de"

/-- Country resolution of `detectLocale`: from the top-level domain, any
unmatched domain defaulting to Switzerland. -/
def detectCountry (host : String) : String :=
  let tld := tldOf host
  if tld = "at" then "AT"
  else if tld = "de" then "DE"
  else if tld = "fr" then "FR"
  else if tld = "it" then "IT"
  else "CH"

/-- Currency derivation: CHF exactly for Switzerland, EUR otherwise. -/
def currencyFor (country : String) : String :=
  if country = "CH" then "CHF" else "EUR"

/-- The fixed per-country default price table of src/src/locale.js lines
72-78, as (diesel, heating) pairs. -/
def defaultPricesTable : List (String × (ℚ × ℚ)) :=
  [("CH", (1.95, 1.35)), ("AT", (1.55, 1.10)), ("DE", (1.65, 1.05)),
   ("FR", (1.75, 1.15)), ("IT", (1.80, 1.20))]

/-- Price lookup `defaultPrices[country] || defaultPrices.CH`. -/
def pricesFor (country : String) : ℚ × ℚ :=
  (defaultPricesTable.lookup country).getD (1.95, 1.35)

/-- `detectLocale(hostname)`: the full resolution.  Explicit overrides
are applied by the caller before this function is consulted; the claims
below concern the no-override path. -/
def detectLocale (host : String) : LocaleInfo :=
  ⟨detectLang host, detectCountry host,
   currencyFor (detectCountry host), pricesFor (detectCountry host)⟩

/-! ### Translation lookup (`getNestedValue` / `applyTranslations`,
localization module lines 65-122 of the bundle) -/

/-- A JSON-like translation value: a string leaf or an object with
string-keyed fields. -/
inductive JVal where
  | str : String → JVal
  | obj : List (String × JVal) → JVal

/-- JavaScript truthiness of a translation value: the empty string is
falsy, every other string and every object is truthy. -/
def truthy : JVal → Bool
  | .str s => s ≠ ""
  | .obj _ => true

/-- Property access `v[key]` restricted to own entries of objects;
primitive string properties such as `length`, which no translation key
addresses, are outside the model. -/
def getProp : JVal → String → Option JVal
  | .str _, _ => none
  | .obj fs, k => fs.lookup k

/-- One step of the `reduce` in `getNestedValue`:
`current && current[key] !== undefined ? current[key] : undefined`. -/
def stepT (cur : Option JVal) (key : String) : Option JVal :=
  match cur with
  | some v => if truthy v then getProp v key else none
  | none => none

/-- Traversal of a list of path segments, the `reduce` of
`getNestedValue` with the object as initial accumulator. -/
def getNestedKeys (t : JVal) (keys : List String) : Option JVal :=
  keys.foldl stepT (some t)

/-- Dot-notation path split into segments. -/
def dotSplit (path : String) : List String :=
  (splitOnChar '.' path.data).map String.mk

/-- `getNestedValue(obj, path)`: dot-notation lookup, `none` standing
for `undefined`. -/
def getNestedValue (t : JVal) (path : String) : Option JVal :=
  getNestedKeys t (dotSplit path)

/-- Text content a translation value would produce when assigned, a
JavaScript stringification. -/
def jvalText : JVal → String
  | .str s => s
  | .obj _ => "[object Object]"

/-- Effect of `applyTranslations` on one element's text: the translation
replaces the text only when the lookup produced a truthy value;
otherwise the existing text is kept (`if (translation) { ... }`). -/
def applyText (old : String) (t : JVal) (key : String) : String :=
  match getNestedValue t key with
  | some v => if truthy v then jvalText v else old
  | none => old

/-- A sample translation object used to exercise the lookup lemmas. -/
def demoTrans : JVal :=
  JVal.obj [("header", JVal.obj [("title", JVal.str "Hallo")])]

/-! ### Helper lemmas -/

/-- Clamping never exceeds the upper bound. -/
lemma clamp_le_hi (v lo hi : ℚ) : clamp v lo hi ≤ hi := min_le_left _ _

/-- Clamping stays above the lower bound when the bounds are ordered. -/
lemma lo_le_clamp (v : ℚ) {lo hi : ℚ} (h : lo ≤ hi) : lo ≤ clamp v lo hi :=
  le_min h (le_max_left _ _)

/-- Clamping an in-range value returns it unchanged. -/
lemma clamp_eq_self {v lo hi : ℚ} (h1 : lo ≤ v) (h2 : v ≤ hi) : clamp v lo hi = v := by
  rw [clamp, max_eq_right h1, min_eq_right h2]

/-- Once the translation traversal has produced `undefined`, it stays
`undefined` for the rest of the path. -/
lemma foldl_stepT_none (l : List String) : l.foldl stepT none = none := by
  induction l with
  | nil => rfl
  | cons a t ih => simpa [stepT] using ih

/-! ### Projection equations for the diesel core

Each local of `calcDiesel` in terms of the previous ones, read off the
source lines 330-348; all hold by definitional unfolding. -/

lemma dieselCore_km (v k p c s : ℚ) :
    (calcDieselCore v k p c s).km = clamp k 1000 300000 := rfl

lemma dieselCore_price (v k p c s : ℚ) :
    (calcDieselCore v k p c s).price = clamp p 0.5 5 := rfl

lemma dieselCore_cons (v k p c s : ℚ) :
    (calcDieselCore v k p c s).cons = clamp c 1 150 := rfl

lemma dieselCore_savePct (v k p c s : ℚ) :
    (calcDieselCore v k p c s).savePct = clamp s 1 25 := rfl

lemma dieselCore_litersPerVehicle (v k p c s : ℚ) :
    (calcDieselCore v k p c s).litersPerVehicle =
      (calcDieselCore v k p c s).km / 100 * (calcDieselCore v k p c s).cons := rfl

lemma dieselCore_totalLiters (v k p c s : ℚ) :
    (calcDieselCore v k p c s).totalLiters =
      (calcDieselCore v k p c s).litersPerVehicle * v := rfl

lemma dieselCore_litersSaved (v k p c s : ℚ) :
    (calcDieselCore v k p c s).litersSaved =
      (calcDieselCore v k p c s).totalLiters * ((calcDieselCore v k p c s).savePct / 100) := rfl

lemma dieselCore_gross (v k p c s : ℚ) :
    (calcDieselCore v k p c s).gross =
      (calcDieselCore v k p c s).litersSaved * (calcDieselCore v k p c s).price := rfl

lemma dieselCore_tecCost (v k p c s : ℚ) :
    (calcDieselCore v k p c s).tecCost =
      (calcDieselCore v k p c s).totalLiters * TEC_COST := rfl

lemma dieselCore_net (v k p c s : ℚ) :
    (calcDieselCore v k p c s).net =
      max 0 ((calcDieselCore v k p c s).gross - (calcDieselCore v k p c s).tecCost) := rfl

lemma dieselCore_co2 (v k p c s : ℚ) :
    (calcDieselCore v k p c s).co2 =
      (calcDieselCore v k p c s).litersSaved * (CO2_LITER / 1000) := rfl

lemma dieselCore_perVehicle (v k p c s : ℚ) :
    (calcDieselCore v k p c s).perVehicle =
      max 0 ((calcDieselCore v k p c s).net / v) := rfl

lemma dieselCore_costWithout (v k p c s : ℚ) :
    (calcDieselCore v k p c s).costWithout =
      (calcDieselCore v k p c s).totalLiters * (calcDieselCore v k p c s).price := rfl

lemma dieselCore_costWith (v k p c s : ℚ) :
    (calcDieselCore v k p c s).costWith =
      (calcDieselCore v k p c s).costWithout - (calcDieselCore v k p c s).net := rfl

/-! ### Projection equations for the heating core (source lines 366-376) -/

lemma heatingCore_liters (l p s : ℚ) :
    (calcHeatingCore l p s).liters = clamp l 500 500000 := rfl

lemma heatingCore_price (l p s : ℚ) :
    (calcHeatingCore l p s).price = clamp p 0.5 5 := rfl

lemma heatingCore_savePct (l p s : ℚ) :
    (calcHeatingCore l p s).savePct = clamp s 1 25 := rfl

lemma heatingCore_litersSaved (l p s : ℚ) :
    (calcHeatingCore l p s).litersSaved =
      (calcHeatingCore l p s).liters * ((calcHeatingCore l p s).savePct / 100) := rfl

lemma heatingCore_gross (l p s : ℚ) :
    (calcHeatingCore l p s).gross =
      (calcHeatingCore l p s).litersSaved * (calcHeatingCore l p s).price := rfl

lemma heatingCore_tecCost (l p s : ℚ) :
    (calcHeatingCore l p s).tecCost =
      (calcHeatingCore l p s).liters * TEC_COST := rfl

lemma heatingCore_net (l p s : ℚ) :
    (calcHeatingCore l p s).net =
      max 0 ((calcHeatingCore l p s).gross - (calcHeatingCore l p s).tecCost) := rfl

lemma heatingCore_co2 (l p s : ℚ) :
    (calcHeatingCore l p s).co2 =
      (calcHeatingCore l p s).litersSaved * (CO2_LITER / 1000) := rfl

lemma heatingCore_costWithout (l p s : ℚ) :
    (calcHeatingCore l p s).costWithout =
      (calcHeatingCore l p s).liters * (calcHeatingCore l p s).price := rfl

lemma heatingCore_costWith (l p s : ℚ) :
    (calcHeatingCore l p s).costWith =
      (calcHeatingCore l p s).costWithout - (calcHeatingCore l p s).net := rfl

/-- The price local of the diesel core is the clamped raw price; stated
separately for reuse at symbolic raw prices. -/
lemma dieselCore_price_pos (v k p c s : ℚ) : 0 < (calcDieselCore v k p c s).price := by
  rw [dieselCore_price]
  exact lt_min (by norm_num) (lt_of_lt_of_le (by norm_num) (le_max_left 0.5 p))

/-! ### Evaluation of the parses the concrete claims use -/

lemma parse_80000 : jsParseFloat "80000" = some 80000 := by
  rw [jsParseFloat, show jsParseRaw "80000" = some ⟨false, 80000, 0, 0⟩ from by decide]
  norm_num [ParsedNum.val]

lemma parse_195 : jsParseFloat "1.95" = some 1.95 := by
  rw [jsParseFloat, show jsParseRaw "1.95" = some ⟨false, 1, 95, 2⟩ from by decide]
  norm_num [ParsedNum.val]

lemma parse_32 : jsParseFloat "32" = some 32 := by
  rw [jsParseFloat, show jsParseRaw "32" = some ⟨false, 32, 0, 0⟩ from by decide]
  norm_num [ParsedNum.val]

lemma parse_7 : jsParseFloat "7" = some 7 := by
  rw [jsParseFloat, show jsParseRaw "7" = some ⟨false, 7, 0, 0⟩ from by decide]
  norm_num [ParsedNum.val]

lemma parse_50 : jsParseFloat "50" = some 50 := by
  rw [jsParseFloat, show jsParseRaw "50" = some ⟨false, 50, 0, 0⟩ from by decide]
  norm_num [ParsedNum.val]

lemma parse_abc : jsParseFloat "abc" = none := rfl

lemma parseCons_32 : parseCons "32" "32" = some 32 := by
  rw [show parseCons "32" "32" = jsParseFloat "32" from rfl, parse_32]

/-! ### The claims -/

/-- C1: for every vehicle-mode input, the net annual savings computed by
the diesel core equal `max 0 (litersSaved * fuelPricePerLiter -
totalLiters * 0.0463)` (with the clamped price the formulas use), and
this net value is never negative. -/
theorem spec_c1 (vehicles km price cons sav : ℚ) :
    (calcDieselCore vehicles km price cons sav).net =
      max 0 ((calcDieselCore vehicles km price cons sav).litersSaved *
          (calcDieselCore vehicles km price cons sav).price -
        (calcDieselCore vehicles km price cons sav).totalLiters * TEC_COST) ∧
    0 ≤ (calcDieselCore vehicles km price cons sav).net :=
  ⟨rfl, by rw [dieselCore_net]; exact le_max_left _ _⟩

/-- C2: the worked example with 5 vehicles, 80000 km, price 1.95,
consumption 32 L/100km and 7 percent savings yields exactly
litersPerVehicle 25600, totalLiters 128000, litersSaved 8960, gross
17472, product cost 5926.4 and net 11545.6, and the formatted primary
result string is `CHF 11'546.–` in the Swiss style. -/
theorem spec_c2 :
    calcDiesel 5 "80000" "1.95" "32" "32" "7" 1.95 =
      some (calcDieselCore 5 80000 1.95 32 7) ∧
    (calcDieselCore 5 80000 1.95 32 7).litersPerVehicle = 25600 ∧
    (calcDieselCore 5 80000 1.95 32 7).totalLiters = 128000 ∧
    (calcDieselCore 5 80000 1.95 32 7).litersSaved = 8960 ∧
    (calcDieselCore 5 80000 1.95 32 7).gross = 17472 ∧
    (calcDieselCore 5 80000 1.95 32 7).tecCost = 5926.4 ∧
    (calcDieselCore 5 80000 1.95 32 7).net = 11545.6 ∧
    formatCurrency (calcDieselCore 5 80000 1.95 32 7).net "CHF" =
      "CHF 11" ++ aposS ++ "546.–" := by
  have hnet : (calcDieselCore 5 80000 1.95 32 7).net = 11545.6 := by
    norm_num [calcDieselCore, clamp, min_def, max_def, TEC_COST]
  refine ⟨?_, ?_, ?_, ?_, ?_, ?_, hnet, ?_⟩
  · rw [calcDiesel, parseCons_32]
    simp only [Option.map_some']
    rw [parse_80000, parse_195, parse_7]
    norm_num [jsOr]
  · norm_num [calcDieselCore, clamp, min_def, max_def]
  · norm_num [calcDieselCore, clamp, min_def, max_def]
  · norm_num [calcDieselCore, clamp, min_def, max_def]
  · norm_num [calcDieselCore, clamp, min_def, max_def]
  · norm_num [calcDieselCore, clamp, min_def, max_def, TEC_COST]
  · rw [hnet, formatCurrency,
      show min (11545.6 : ℚ) MAX_OUT = 11545.6 from by norm_num [MAX_OUT, min_def],
      show jsRound 11545.6 = 11546 from by rw [jsRound, Int.floor_eq_iff]; norm_num]
    decide

/-- C4: a parsed numeric value above its documented bound is replaced by
the maximum, one below it by the minimum, and in particular a savings
percent input of 50 is clamped to 25 before use in any formula. -/
theorem spec_c4 :
    (∀ v lo hi : ℚ, lo ≤ hi →
        (hi < v → clamp v lo hi = hi) ∧ (v < lo → clamp v lo hi = lo)) ∧
    (calcDiesel 5 "80000" "1.95" "32" "32" "50" 1.95).map DieselResult.savePct =
      some 25 := by
  constructor
  · intro v lo hi h
    constructor
    · intro hv
      rw [clamp, max_eq_right (le_of_lt (lt_of_le_of_lt h hv)), min_eq_left (le_of_lt hv)]
    · intro hv
      rw [clamp, max_eq_left (le_of_lt hv), min_eq_right h]
  · rw [calcDiesel, parseCons_32]
    simp only [Option.map_some']
    rw [parse_80000, parse_195, parse_50]
    norm_num [jsOr, dieselCore_savePct, clamp, min_def, max_def]

/-- C4 witness: the clamp lemma applied to the savings bound at the
out-of-range input 50. -/
theorem spec_c4_witness : clamp 50 1 25 = 25 :=
  (spec_c4.1 50 1 25 (by norm_num)).1 (by norm_num)

/-- C5: when the raw price field is the unparseable string `abc`, the
vehicle-mode price used in the formulas is the resolved country's
default diesel price clamped to `[0.5, 5]`, which is strictly positive,
and the default differs between countries. -/
theorem spec_c5 :
    (∀ (host kmS consT consS savS : String) (v : ℚ) (r : DieselResult),
        calcDiesel v kmS "abc" consT consS savS (detectLocale host).prices.1 = some r →
        r.price = clamp (detectLocale host).prices.1 0.5 5 ∧ 0 < r.price) ∧
    (detectLocale "tecblu.ch").prices.1 ≠ (detectLocale "tecblu.at").prices.1 := by
  constructor
  · intro host kmS consT consS savS v r h
    rw [calcDiesel] at h
    rcases hpc : parseCons consT consS with _ | cval
    · rw [hpc] at h
      simp at h
    · rw [hpc] at h
      simp only [Option.map_some'] at h
      have hr := Option.some_inj.mp h
      subst hr
      constructor
      · rw [dieselCore_price, parse_abc]
        rfl
      · exact dieselCore_price_pos _ _ _ _ _
  · rw [show (detectLocale "tecblu.ch").prices.1 = 1.95 from rfl,
      show (detectLocale "tecblu.at").prices.1 = 1.55 from rfl]
    norm_num

/-- C5 witness: the unparseable price with the Swiss locale falls back
to the Swiss default diesel price 1.95. -/
theorem spec_c5_witness :
    (calcDieselCore 5 80000 1.95 32 7).price =
      clamp ((detectLocale "tecblu.ch").prices.1) 0.5 5 ∧
    0 < (calcDieselCore 5 80000 1.95 32 7).price :=
  spec_c5.1 "tecblu.ch" "80000" "32" "32" "7" 5 (calcDieselCore 5 80000 1.95 32 7) (by
    rw [calcDiesel, parseCons_32]
    simp only [Option.map_some']
    rw [parse_80000, parse_abc, parse_7,
      show (detectLocale "tecblu.ch").prices.1 = 1.95 from rfl]
    norm_num [jsOr])

/-- C7: the hostname `en.tecblu.it` with no override resolves to
language `en`, country `IT`, currency `EUR` and the Italian default
prices. -/
theorem spec_c7 : detectLocale "en.tecblu.it" = ⟨"en", "IT", "EUR", (1.80, 1.20)⟩ := rfl

/-- C9: for ordered bounds, the clamp function returns in-range values
unchanged and is idempotent. -/
theorem spec_c9 (lo hi : ℚ) (h : lo ≤ hi) :
    (∀ v : ℚ, lo ≤ v → v ≤ hi → clamp v lo hi = v) ∧
    (∀ v : ℚ, clamp (clamp v lo hi) lo hi = clamp v lo hi) :=
  ⟨fun _ h1 h2 => clamp_eq_self h1 h2,
   fun v => clamp_eq_self (lo_le_clamp v h) (clamp_le_hi v lo hi)⟩

/-- C9 witness: the clamp lemmas at the savings bound, at the in-range
value 7 and the out-of-range value 50. -/
theorem spec_c9_witness :
    clamp 7 1 25 = 7 ∧ clamp (clamp 50 1 25) 1 25 = clamp 50 1 25 :=
  ⟨(spec_c9 1 25 (by norm_num)).1 7 (by norm_num) (by norm_num),
   (spec_c9 1 25 (by norm_num)).2 50⟩

/-- C3: for every in-bounds heating-mode input, the heating formulas
hold as stated (litersSaved, product cost, floored net, CO2, cost
comparison), and the worked example with 8000 liters, price 1.35 and 7
percent yields exactly litersSaved 560, gross 756, product cost 370.4,
net 385.6 and CO2 1.484 tonnes. -/
theorem spec_c3 :
    (∀ liters price pct : ℚ, 500 ≤ liters → liters ≤ 500000 → 0.5 ≤ price →
        price ≤ 5 → 1 ≤ pct → pct ≤ 25 →
        (calcHeatingCore liters price pct).litersSaved = liters * (pct / 100) ∧
        (calcHeatingCore liters price pct).tecCost = liters * TEC_COST ∧
        (calcHeatingCore liters price pct).net =
          max 0 ((calcHeatingCore liters price pct).litersSaved * price -
            (calcHeatingCore liters price pct).tecCost) ∧
        (calcHeatingCore liters price pct).co2 =
          (calcHeatingCore liters price pct).litersSaved * (CO2_LITER / 1000) ∧
        (calcHeatingCore liters price pct).costWithout = liters * price ∧
        (calcHeatingCore liters price pct).costWith =
          (calcHeatingCore liters price pct).costWithout -
            (calcHeatingCore liters price pct).net) ∧
    ((calcHeatingCore 8000 1.35 7).litersSaved = 560 ∧
     (calcHeatingCore 8000 1.35 7).gross = 756 ∧
     (calcHeatingCore 8000 1.35 7).tecCost = 370.4 ∧
     (calcHeatingCore 8000 1.35 7).net = 385.6 ∧
     (calcHeatingCore 8000 1.35 7).co2 = 1.484) := by
  constructor
  · intro liters price pct h1 h2 h3 h4 h5 h6
    have el : clamp liters 500 500000 = liters := clamp_eq_self h1 h2
    have ep : clamp price 0.5 5 = price := clamp_eq_self h3 h4
    have es : clamp pct 1 25 = pct := clamp_eq_self h5 h6
    refine ⟨?_, ?_, ?_, ?_, ?_, ?_⟩
    · rw [heatingCore_litersSaved, heatingCore_liters, heatingCore_savePct, el, es]
    · rw [heatingCore_tecCost, heatingCore_liters, el]
    · rw [heatingCore_net, heatingCore_gross, heatingCore_price, ep]
    · rw [heatingCore_co2]
    · rw [heatingCore_costWithout, heatingCore_liters, heatingCore_price, el, ep]
    · rw [heatingCore_costWith]
  · refine ⟨?_, ?_, ?_, ?_, ?_⟩ <;>
      norm_num [calcHeatingCore, clamp, min_def, max_def, TEC_COST, CO2_LITER]

/-- C3 witness: the heating formula theorem applied at the worked
example input. -/
theorem spec_c3_witness :
    (calcHeatingCore 8000 1.35 7).litersSaved = 8000 * (7 / 100) :=
  (spec_c3.1 8000 1.35 7 (by norm_num) (by norm_num) (by norm_num) (by norm_num)
    (by norm_num) (by norm_num)).1

/-- C6 (amended): the currency is CHF exactly when the resolved country
is CH and EUR otherwise; CHF outputs use the Swiss style with a trailing
`.–` marker, while EUR outputs of `fmtCurrency` carry a leading `€ `
prefix and no trailing symbol. -/
theorem spec_c6 :
    (∀ host : String,
        (detectLocale host).currency = "CHF" ↔ (detectLocale host).country = "CH") ∧
    (∀ q : ℚ, fmtCurrency q "CHF" = "CHF " ++ groupInt (jsRound (min q MAX_OUT)) ++ ".–") ∧
    (∀ q : ℚ, fmtCurrency q "EUR" = "€ " ++ groupInt (jsRound (min q MAX_OUT))) := by
  refine ⟨?_, fun _ => rfl, fun _ => rfl⟩
  intro host
  have h1 : (detectLocale host).currency = currencyFor (detectCountry host) := rfl
  have h2 : (detectLocale host).country = detectCountry host := rfl
  rw [h1, h2, currencyFor]
  by_cases hc : detectCountry host = "CH"
  · rw [if_pos hc]
    exact iff_of_true rfl hc
  · rw [if_neg hc]
    exact iff_of_false (by decide) hc

/-- C6 counterexample: at the value 1000 the EUR-formatted output is
`€ 1'000`, which carries a leading euro sign and does not end with the
trailing euro symbol the claim asserts. -/
theorem spec_c6_counterexample :
    fmtCurrency 1000 "EUR" = "€ 1" ++ aposS ++ "000" ∧
    ((fmtCurrency 1000 "EUR").endsWith "€") = false := by
  have h1 : min (1000 : ℚ) MAX_OUT = 1000 := by norm_num [MAX_OUT, min_def]
  have h2 : jsRound 1000 = 1000 := by rw [jsRound, Int.floor_eq_iff]; norm_num
  constructor
  · rw [fmtCurrency, h1, h2]
    decide
  · rw [fmtCurrency, h1, h2]
    decide

/-- C8: translation lookup propagates a missing path segment to an
`undefined` overall result without raising an error, and an absent
lookup result leaves the element's existing text unchanged. -/
theorem spec_c8 :
    (∀ (t : JVal) (pre : List String) (k : String) (post : List String),
        stepT (getNestedKeys t pre) k = none → getNestedKeys t (pre ++ k :: post) = none) ∧
    (∀ (old : String) (t : JVal) (key : String),
        getNestedValue t key = none → applyText old t key = old) := by
  constructor
  · intro t pre k post h
    rw [getNestedKeys, List.foldl_append, List.foldl_cons]
    rw [show pre.foldl stepT (some t) = getNestedKeys t pre from rfl, h]
    exact foldl_stepT_none post
  · intro old t key h
    have he : applyText old t key =
        match getNestedValue t key with
        | some v => if truthy v then jvalText v else old
        | none => old := rfl
    rw [he, h]

/-- C8 witness: a missing key inside a sample translation object
produces `undefined` and leaves the original text in place. -/
theorem spec_c8_witness :
    getNestedKeys demoTrans (["header"] ++ "missing" :: []) = none ∧
    applyText "alt" demoTrans "header.nope" = "alt" :=
  ⟨spec_c8.1 demoTrans ["header"] "missing" [] (by rfl),
   spec_c8.2 "alt" demoTrans "header.nope" (by rfl)⟩

/-- C10: for in-bounds inputs (the vehicle count within its bound, the
other fields clamped by the engine itself), every derived quantity of
both modes is strictly below the output ceiling 999999999999, and the
min-with-ceiling of the formatting helpers leaves any such value
unchanged. -/
theorem spec_c10 :
    (∀ v k p c s : ℚ, 1 ≤ v → v ≤ 1000 →
        (calcDieselCore v k p c s).litersPerVehicle < MAX_OUT ∧
        (calcDieselCore v k p c s).totalLiters < MAX_OUT ∧
        (calcDieselCore v k p c s).litersSaved < MAX_OUT ∧
        (calcDieselCore v k p c s).gross < MAX_OUT ∧
        (calcDieselCore v k p c s).tecCost < MAX_OUT ∧
        (calcDieselCore v k p c s).net < MAX_OUT ∧
        (calcDieselCore v k p c s).co2 < MAX_OUT ∧
        (calcDieselCore v k p c s).perVehicle < MAX_OUT ∧
        (calcDieselCore v k p c s).costWithout < MAX_OUT ∧
        (calcDieselCore v k p c s).costWith < MAX_OUT) ∧
    (∀ l p s : ℚ,
        (calcHeatingCore l p s).litersSaved < MAX_OUT ∧
        (calcHeatingCore l p s).gross < MAX_OUT ∧
        (calcHeatingCore l p s).tecCost < MAX_OUT ∧
        (calcHeatingCore l p s).net < MAX_OUT ∧
        (calcHeatingCore l p s).co2 < MAX_OUT ∧
        (calcHeatingCore l p s).costWithout < MAX_OUT ∧
        (calcHeatingCore l p s).costWith < MAX_OUT) ∧
    (∀ q : ℚ, q < MAX_OUT → min q MAX_OUT = q) := by
  refine ⟨?_, ?_, fun q h => min_eq_left (le_of_lt h)⟩
  · intro v k p c s hv1 hv2
    have e1 := dieselCore_litersPerVehicle v k p c s
    have e2 := dieselCore_totalLiters v k p c s
    have e3 := dieselCore_litersSaved v k p c s
    have e4 := dieselCore_gross v k p c s
    have e5 := dieselCore_tecCost v k p c s
    have e6 := dieselCore_net v k p c s
    have e7 := dieselCore_co2 v k p c s
    have e8 := dieselCore_perVehicle v k p c s
    have e9 := dieselCore_costWithout v k p c s
    have e10 := dieselCore_costWith v k p c s
    have hk1 : (1000 : ℚ) ≤ (calcDieselCore v k p c s).km := by
      rw [dieselCore_km]; exact lo_le_clamp k (by norm_num)
    have hk2 : (calcDieselCore v k p c s).km ≤ 300000 := by
      rw [dieselCore_km]; exact clamp_le_hi k 1000 300000
    have hp1 : (0.5 : ℚ) ≤ (calcDieselCore v k p c s).price := by
      rw [dieselCore_price]; exact lo_le_clamp p (by norm_num)
    have hp2 : (calcDieselCore v k p c s).price ≤ 5 := by
      rw [dieselCore_price]; exact clamp_le_hi p 0.5 5
    have hc1 : (1 : ℚ) ≤ (calcDieselCore v k p c s).cons := by
      rw [dieselCore_cons]; exact lo_le_clamp c (by norm_num)
    have hc2 : (calcDieselCore v k p c s).cons ≤ 150 := by
      rw [dieselCore_cons]; exact clamp_le_hi c 1 150
    have hs1 : (1 : ℚ) ≤ (calcDieselCore v k p c s).savePct := by
      rw [dieselCore_savePct]; exact lo_le_clamp s (by norm_num)
    have hs2 : (calcDieselCore v k p c s).savePct ≤ 25 := by
      rw [dieselCore_savePct]; exact clamp_le_hi s 1 25
    set r := calcDieselCore v k p c s with hr
    have hM : MAX_OUT = 999999999999 := rfl
    have hv0 : (0 : ℚ) ≤ v := le_trans (by norm_num) hv1
    have hkd : r.km / 100 ≤ 3000 := by linarith
    have hkd0 : (0 : ℚ) ≤ r.km / 100 := by linarith
    have hc0 : (0 : ℚ) ≤ r.cons := by linarith
    have hlpv : r.litersPerVehicle ≤ 450000 := by
      rw [e1]
      have := mul_le_mul hkd hc2 hc0 (by norm_num : (0 : ℚ) ≤ 3000)
      linarith
    have hlpv0 : (0 : ℚ) ≤ r.litersPerVehicle := by
      rw [e1]; exact mul_nonneg hkd0 hc0
    have htl : r.totalLiters ≤ 450000000 := by
      rw [e2]
      have := mul_le_mul hlpv hv2 hv0 (by norm_num : (0 : ℚ) ≤ 450000)
      linarith
    have htl0 : (0 : ℚ) ≤ r.totalLiters := by
      rw [e2]; exact mul_nonneg hlpv0 hv0
    have hsd : r.savePct / 100 ≤ 1 / 4 := by linarith
    have hsd0 : (0 : ℚ) ≤ r.savePct / 100 := by linarith
    have hls : r.litersSaved ≤ 112500000 := by
      rw [e3]
      have := mul_le_mul htl hsd hsd0 (by norm_num : (0 : ℚ) ≤ 450000000)
      linarith
    have hls0 : (0 : ℚ) ≤ r.litersSaved := by
      rw [e3]; exact mul_nonneg htl0 hsd0
    have hp0 : (0 : ℚ) ≤ r.price := by linarith
    have hg : r.gross ≤ 562500000 := by
      rw [e4]
      have := mul_le_mul hls hp2 hp0 (by norm_num : (0 : ℚ) ≤ 112500000)
      linarith
    have htc : r.tecCost ≤ 20835000 := by
      rw [e5]
      have h1 := mul_le_mul_of_nonneg_right htl
        (by norm_num [TEC_COST] : (0 : ℚ) ≤ TEC_COST)
      have h2 : (450000000 : ℚ) * TEC_COST = 20835000 := by norm_num [TEC_COST]
      linarith
    have htc0 : (0 : ℚ) ≤ r.tecCost := by
      rw [e5]; exact mul_nonneg htl0 (by norm_num [TEC_COST])
    have hnet0 : (0 : ℚ) ≤ r.net := by rw [e6]; exact le_max_left _ _
    have hnet : r.net ≤ 562500000 := by
      rw [e6]; exact max_le (by norm_num) (by linarith)
    have hco : r.co2 ≤ 298125 := by
      rw [e7]
      have h1 := mul_le_mul_of_nonneg_right hls
        (by norm_num [CO2_LITER] : (0 : ℚ) ≤ CO2_LITER / 1000)
      have h2 : (112500000 : ℚ) * (CO2_LITER / 1000) = 298125 := by norm_num [CO2_LITER]
      linarith
    have hpv : r.perVehicle ≤ 562500000 := by
      rw [e8]
      exact max_le (by norm_num) (le_trans (div_le_self hnet0 hv1) hnet)
    have hcwo : r.costWithout ≤ 2250000000 := by
      rw [e9]
      have := mul_le_mul htl hp2 hp0 (by norm_num : (0 : ℚ) ≤ 450000000)
      linarith
    have hcw : r.costWith ≤ 2250000000 := by
      rw [e10]; linarith
    refine ⟨?_, ?_, ?_, ?_, ?_, ?_, ?_, ?_, ?_, ?_⟩ <;> rw [hM] <;> linarith
  · intro l p s
    have e1 := heatingCore_litersSaved l p s
    have e2 := heatingCore_gross l p s
    have e3 := heatingCore_tecCost l p s
    have e4 := heatingCore_net l p s
    have e5 := heatingCore_co2 l p s
    have e6 := heatingCore_costWithout l p s
    have e7 := heatingCore_costWith l p s
    have hl1 : (500 : ℚ) ≤ (calcHeatingCore l p s).liters := by
      rw [heatingCore_liters]; exact lo_le_clamp l (by norm_num)
    have hl2 : (calcHeatingCore l p s).liters ≤ 500000 := by
      rw [heatingCore_liters]; exact clamp_le_hi l 500 500000
    have hp1 : (0.5 : ℚ) ≤ (calcHeatingCore l p s).price := by
      rw [heatingCore_price]; exact lo_le_clamp p (by norm_num)
    have hp2 : (calcHeatingCore l p s).price ≤ 5 := by
      rw [heatingCore_price]; exact clamp_le_hi p 0.5 5
    have hs1 : (1 : ℚ) ≤ (calcHeatingCore l p s).savePct := by
      rw [heatingCore_savePct]; exact lo_le_clamp s (by norm_num)
    have hs2 : (calcHeatingCore l p s).savePct ≤ 25 := by
      rw [heatingCore_savePct]; exact clamp_le_hi s 1 25
    set r := calcHeatingCore l p s with hr
    have hM : MAX_OUT = 999999999999 := rfl
    have hl0 : (0 : ℚ) ≤ r.liters := by linarith
    have hsd : r.savePct / 100 ≤ 1 / 4 := by linarith
    have hsd0 : (0 : ℚ) ≤ r.savePct / 100 := by linarith
    have hp0 : (0 : ℚ) ≤ r.price := by linarith
    have hls : r.litersSaved ≤ 125000 := by
      rw [e1]
      have := mul_le_mul hl2 hsd hsd0 (by norm_num : (0 : ℚ) ≤ 500000)
      linarith
    have hls0 : (0 : ℚ) ≤ r.litersSaved := by
      rw [e1]; exact mul_nonneg hl0 hsd0
    have hg : r.gross ≤ 625000 := by
      rw [e2]
      have := mul_le_mul hls hp2 hp0 (by norm_num : (0 : ℚ) ≤ 125000)
      linarith
    have htc : r.tecCost ≤ 23150 := by
      rw [e3]
      have h1 := mul_le_mul_of_nonneg_right hl2
        (by norm_num [TEC_COST] : (0 : ℚ) ≤ TEC_COST)
      have h2 : (500000 : ℚ) * TEC_COST = 23150 := by norm_num [TEC_COST]
      linarith
    have htc0 : (0 : ℚ) ≤ r.tecCost := by
      rw [e3]; exact mul_nonneg hl0 (by norm_num [TEC_COST])
    have hnet0 : (0 : ℚ) ≤ r.net := by rw [e4]; exact le_max_left _ _
    have hnet : r.net ≤ 625000 := by
      rw [e4]; exact max_le (by norm_num) (by linarith)
    have hco : r.co2 ≤ 332 := by
      rw [e5]
      have h1 := mul_le_mul_of_nonneg_right hls
        (by norm_num [CO2_LITER] : (0 : ℚ) ≤ CO2_LITER / 1000)
      have h2 : (125000 : ℚ) * (CO2_LITER / 1000) = 331.25 := by norm_num [CO2_LITER]
      linarith
    have hcwo : r.costWithout ≤ 2500000 := by
      rw [e6]
      have := mul_le_mul hl2 hp2 hp0 (by norm_num : (0 : ℚ) ≤ 500000)
      linarith
    have hcw : r.costWith ≤ 2500000 := by
      rw [e7]; linarith
    refine ⟨?_, ?_, ?_, ?_, ?_, ?_, ?_⟩ <;> rw [hM] <;> linarith

/-- C10 witness: the bound theorem applied at the worked example and the
ceiling identity at the value 1000. -/
theorem spec_c10_witness :
    (calcDieselCore 5 80000 1.95 32 7).litersPerVehicle < MAX_OUT ∧
    min 1000 MAX_OUT = (1000 : ℚ) :=
  ⟨(spec_c10.1 5 80000 1.95 32 7 (by norm_num) (by norm_num)).1,
   spec_c10.2.2 1000 (by norm_num [MAX_OUT])⟩
